import Mathlib

/-!
Verification of the hybrid SCAM/HAM comment-classification engine
(`ssb_api.py`): rule engine, tactic ladder, fusion policy, dataset
loading and training endpoint.  Regex searches are shallowly embedded
as executable scanners over `List Char`; Python floats are modelled as
exact rationals; the filesystem and the module-level `MODEL` variable
are modelled as explicit state.
-/

/-- Python whitespace class `\s` (ASCII part): space, tab, newline,
carriage return, vertical tab, form feed. -/
def isSpaceChar (c : Char) : Bool :=
  c = ' ' || c = '\t' || c = '\n' || c = '\r' || c = Char.ofNat 0x0b || c = Char.ofNat 0x0c

/-- Python word-character class `\w` (ASCII part): letters, digits, underscore. -/
def isWordChar (c : Char) : Bool :=
  c.isAlpha || c.isDigit || c = '_'

/-- Python `str.strip()` on a character list: drop whitespace at both ends. -/
def pyStrip (cs : List Char) : List Char :=
  (((cs.dropWhile isSpaceChar).reverse).dropWhile isSpaceChar).reverse

/-- Python `str.strip()` on a string. -/
def pyStripS (s : String) : String :=
  String.mk (pyStrip s.data)

/-- Python `str.upper()` (ASCII part). -/
def pyUpper (s : String) : String :=
  String.mk (s.data.map Char.toUpper)

/-- Match `pat` (given lowercased) as a case-insensitive literal at the head of
`cs`; return the remaining characters on success. -/
def matchCI : List Char → List Char → Option (List Char)
  | [], cs => some cs
  | _ :: _, [] => none
  | w :: ws, c :: cs => if c.toLower = w then matchCI ws cs else none

/-- Match `pat` as an exact literal at the head of `cs`; return the remainder. -/
def matchExact : List Char → List Char → Option (List Char)
  | [], cs => some cs
  | _ :: _, [] => none
  | w :: ws, c :: cs => if c = w then matchExact ws cs else none

/-- Position scan of `re.search`: does `p` hold at some suffix of the text? -/
def anySuffix (p : List Char → Bool) : List Char → Bool
  | [] => p []
  | c :: cs => p (c :: cs) || anySuffix p cs

/-- Python `needle in hay` substring containment. -/
def strContains (hay needle : String) : Bool :=
  anySuffix (fun cs => (matchExact needle.data cs).isSome) hay.data

/-- The regex `URL_RE = (https?://|www\.)\S+` (IGNORECASE) matching at this position:
one of the three scheme markers followed by at least one non-space character. -/
def urlHere (cs : List Char) : Bool :=
  (match matchCI ("http://".data) cs with
   | some (c :: _) => !isSpaceChar c
   | _ => false) ||
  (match matchCI ("https://".data) cs with
   | some (c :: _) => !isSpaceChar c
   | _ => false) ||
  (match matchCI ("www.".data) cs with
   | some (c :: _) => !isSpaceChar c
   | _ => false)

/-- Search of `URL_RE`. -/
def urlSearch (cs : List Char) : Bool := anySuffix urlHere cs

/-- The regex `TICKER_RE = \$[A-Za-z0-9]{3,10}` at this position: a `$` followed by at
least three ASCII alphanumerics (three suffice for search to succeed). -/
def tickerHere : List Char → Bool
  | '$' :: a :: b :: c :: _ => a.isAlphanum && b.isAlphanum && c.isAlphanum
  | _ => false

/-- Search of `TICKER_RE`. -/
def tickerSearch (cs : List Char) : Bool := anySuffix tickerHere cs

/-- The regex `HANDLE_RE = @[\w\d_]{3,}` at this position: `@` then at least three word
characters. -/
def handleHere : List Char → Bool
  | '@' :: a :: b :: c :: _ => isWordChar a && isWordChar b && isWordChar c
  | _ => false

/-- Search of `HANDLE_RE`. -/
def handleSearch (cs : List Char) : Bool := anySuffix handleHere cs

/-- One alternative of a `\b(w1|w2|...)\b` keyword group matching here:
the keyword matches case-insensitively and the following character (if any)
is not a word character (the trailing `\b`). -/
def kwHere (w : List Char) (cs : List Char) : Bool :=
  match matchCI w cs with
  | none => false
  | some [] => true
  | some (c :: _) => !isWordChar c

/-- Is a position a word boundary, given the previous character (if any)?
All keyword alternatives start with a word character, so the leading `\b`
holds exactly when the previous character is absent or a non-word character. -/
def boundaryOK : Option Char → Bool
  | none => true
  | some c => !isWordChar c

/-- Scan for `\b(w1|...|wn)\b` with IGNORECASE, tracking the previous
character for the leading boundary. -/
def kwSearchAux (ws : List (List Char)) : Option Char → List Char → Bool
  | _, [] => false
  | prev, c :: cs =>
    (boundaryOK prev && ws.any (fun w => kwHere w (c :: cs))) || kwSearchAux ws (some c) cs

/-- The regex `KEYWORDS_ADULT = \b(naughty|onlyfans|sex|snapchat|snap)\b` (IGNORECASE). -/
def KEYWORDS_ADULT : List (List Char) :=
  ["naughty".data, "onlyfans".data, "sex".data, "snapchat".data, "snap".data]

/-- The regex `KEYWORDS_FUNNEL` (IGNORECASE). -/
def KEYWORDS_FUNNEL : List (List Char) :=
  ["dm me".data, "inbox".data, "message me".data, "contact".data, "reach me".data,
   "telegram".data, "whatsapp".data, "t.me".data, "link in bio".data,
   "check my bio".data, "profile picture".data]

/-- The regex `KEYWORDS_PROFIT` (IGNORECASE). -/
def KEYWORDS_PROFIT : List (List Char) :=
  ["profit".data, "earned".data, "returns".data, "roi".data, "win rate".data,
   "money printer".data, "bull run".data, "airdrop".data, "mining".data,
   "signals".data, "vip group".data, "copy trading".data, "forex".data,
   "binary options".data, "withdraw instantly".data]

/-- Search of `KEYWORDS_ADULT`. -/
def adultSearch (cs : List Char) : Bool := kwSearchAux KEYWORDS_ADULT none cs

/-- Search of `KEYWORDS_FUNNEL`. -/
def funnelSearch (cs : List Char) : Bool := kwSearchAux KEYWORDS_FUNNEL none cs

/-- Search of `KEYWORDS_PROFIT`. -/
def profitSearch (cs : List Char) : Bool := kwSearchAux KEYWORDS_PROFIT none cs

/-- The ten alternatives of `HEART_SPAM_RE`, as the exact (mojibake) character
sequences appearing in the source literal. -/
def heartAlts : List (List Char) :=
  [[Char.ofNat 0xe2, Char.ofNat 0xa4, Char.ofNat 0xef, Char.ofNat 0xb8],
   [Char.ofNat 0xf0, Char.ofNat 0x178, Char.ofNat 0x2dc],
   [Char.ofNat 0xf0, Char.ofNat 0x178, Char.ofNat 0x2019, Char.ofNat 0x2013],
   [Char.ofNat 0xf0, Char.ofNat 0x178, Char.ofNat 0x2019, Char.ofNat 0xb8],
   [Char.ofNat 0xf0, Char.ofNat 0x178, Char.ofNat 0x161, Char.ofNat 0x20ac],
   [Char.ofNat 0xf0, Char.ofNat 0x178, Char.ofNat 0x152, Char.ofNat 0x2022],
   [Char.ofNat 0xf0, Char.ofNat 0x178, Char.ofNat 0x2122],
   [Char.ofNat 0xf0, Char.ofNat 0x178, Char.ofNat 0x2018, Char.ofNat 0xbc],
   [Char.ofNat 0xf0, Char.ofNat 0x178, Char.ofNat 0x2019, Char.ofNat 0x2026],
   [Char.ofNat 0xf0, Char.ofNat 0x178, Char.ofNat 0x2019, Char.ofNat 0x17d]]

/-- First alternative matching at the head (the alternatives are mutually
prefix-free, so this is the unique match). -/
def firstMatch : List (List Char) → List Char → Option (List Char)
  | [], _ => none
  | a :: as, cs =>
    match matchExact a cs with
    | some r => some r
    | none => firstMatch as cs

/-- The regex `HEART_SPAM_RE = (...){3,}` at this position: three consecutive
alternative matches (three suffice for search to succeed). -/
def heartHere (cs : List Char) : Bool :=
  match firstMatch heartAlts cs with
  | none => false
  | some r1 =>
    match firstMatch heartAlts r1 with
    | none => false
    | some r2 => (firstMatch heartAlts r2).isSome

/-- Search of `HEART_SPAM_RE`. -/
def heartSearch (cs : List Char) : Bool := anySuffix heartHere cs

/-- Output of `rule_features`. -/
structure RuleFeatures where
  rule_score : Nat
  rule_tags : List String
deriving DecidableEq

/-- The function `rule_features(text)`: strip the text, then each rule category that
matches contributes its fixed weight to the score and its tag name once, in
the fixed source order; the final `len(t) <= 10` branch adds `0`. -/
def rule_features (text : String) : RuleFeatures :=
  let t := pyStrip text.data
  { rule_score :=
      (if urlSearch t then 4 else 0) + (if funnelSearch t then 4 else 0) +
      (if adultSearch t then 6 else 0) + (if tickerSearch t then 4 else 0) +
      (if profitSearch t then 3 else 0) + (if handleSearch t then 2 else 0) +
      (if heartSearch t then 1 else 0) + (if t.length ≤ 10 then 0 else 0)
    rule_tags :=
      (if urlSearch t then ["url"] else []) ++ (if funnelSearch t then ["funnel"] else []) ++
      (if adultSearch t then ["adult"] else []) ++ (if tickerSearch t then ["ticker"] else []) ++
      (if profitSearch t then ["profit"] else []) ++ (if handleSearch t then ["handle"] else []) ++
      (if heartSearch t then ["emoji_spam"] else []) }

/-- The function `tactic_from_tags(tags)`: the fixed top-to-bottom priority ladder. -/
def tactic_from_tags (tags : List String) : Option String :=
  if "adult" ∈ tags then some "SCAM_ADULT"
  else if "ticker" ∈ tags ∧ "profit" ∈ tags then some "SCAM_CRYPTO"
  else if "funnel" ∈ tags ∧ ("profit" ∈ tags ∨ "handle" ∈ tags ∨ "url" ∈ tags) then
    some "SCAM_FUNNEL"
  else if "url" ∈ tags ∧ "profit" ∈ tags then some "SCAM_FUNNEL"
  else if "emoji_spam" ∈ tags ∧ "funnel" ∈ tags then some "SCAM_FUNNEL"
  else none

/-- The threshold `RULE_HARD_SCAM_SCORE = 6`: at or above this, SCAM immediately. -/
def RULE_HARD_SCAM_SCORE : Nat := 6

/-- The threshold `RULE_SOFT_SCAM_SCORE = 3`: at or above this and ML agrees, SCAM. -/
def RULE_SOFT_SCAM_SCORE : Nat := 3

/-- The loop local `scam_prob = min(1.0, ml_scam_prob + 0.05 * rscore)`,
with floats modelled as exact rationals (`mkRat 5 100` is the exact value
of the literal `0.05`, written via `mkRat` so the kernel can evaluate it). -/
def scam_prob (rscore : Nat) (ml_scam_prob : ℚ) : ℚ :=
  min 1 (ml_scam_prob + mkRat 5 100 * rscore)

/-- The loop local `is_scam`: hard rule threshold, then soft threshold with
combined-score agreement at `0.55`, then the ML-only path at `0.70`. -/
def is_scam (rscore : Nat) (ml_scam_prob : ℚ) : Bool :=
  if RULE_HARD_SCAM_SCORE ≤ rscore then true
  else if RULE_SOFT_SCAM_SCORE ≤ rscore ∧ mkRat 55 100 ≤ scam_prob rscore ml_scam_prob then true
  else if mkRat 7 10 ≤ ml_scam_prob then true
  else false

/-- One entry of the `/analyze` response. -/
structure ClassificationResult where
  label : String
  score : ℚ
  tactic : Option String
  debug_rule_score : Nat
  debug_rule_tags : List String
  debug_ml_scam_prob : ℚ
deriving DecidableEq

/-- The fusion of one rule result with one ML probability, as built by the
`analyze` loop body: label from `is_scam`, score is always `scam_prob`,
tactic attached only when `is_scam`, raw inputs echoed in the debug record. -/
def fuse (rscore : Nat) (tags : List String) (ml_scam_prob : ℚ) : ClassificationResult :=
  { label := if is_scam rscore ml_scam_prob then "SCAM" else "HAM"
    score := scam_prob rscore ml_scam_prob
    tactic := if is_scam rscore ml_scam_prob then tactic_from_tags tags else none
    debug_rule_score := rscore
    debug_rule_tags := tags
    debug_ml_scam_prob := ml_scam_prob }

/-- Classification of a single comment given its ML SCAM probability:
`rule_features` then fusion. -/
def classify_one (text : String) (ml_scam_prob : ℚ) : ClassificationResult :=
  fuse (rule_features text).rule_score (rule_features text).rule_tags ml_scam_prob

/-- The error taxonomy of the training pipeline: dataset file missing
(`FileNotFoundError`), header missing the field markers (`ValueError` on the
header), too few usable rows (`ValueError` on the row count). -/
inductive TrainError
  | datasetNotFound
  | datasetFormat
  | dataInsufficient
deriving DecidableEq

/-- The dict returned by `load_labeled_tsv`. -/
structure LabeledDataset where
  texts : List String
  labels : List String
deriving DecidableEq

/-- Python `str.split` on a single separator character: always at least one
field, an empty string yields one empty field. -/
def splitChar (sep : Char) : List Char → List (List Char)
  | [] => [[]]
  | c :: cs =>
    match splitChar sep cs with
    | [] => [[]]
    | h :: t => if c = sep then [] :: h :: t else (c :: h) :: t

/-- Python `line.split("\t")`. -/
def pySplitTab (s : String) : List String :=
  (splitChar '\t' s.data).map String.mk

/-- Python `"\t".join(parts)`. -/
def pyJoinTab (parts : List String) : String :=
  String.mk (List.intercalate ['\t'] (parts.map String.data))

/-- One data line of `load_labeled_tsv`: skip blank lines, skip lines with
fewer than two tab fields, text is the tab-join of all but the last field
then stripped, label is the last field stripped and upper-cased, and only
labels exactly SCAM or HAM are kept. -/
def parseRow (line : String) : Option (String × String) :=
  if pyStripS line = "" then none
  else if (pySplitTab line).length < 2 then none
  else if pyUpper (pyStripS ((pySplitTab line).getLastD "")) = "SCAM"
       ∨ pyUpper (pyStripS ((pySplitTab line).getLastD "")) = "HAM" then
    some (pyStripS (pyJoinTab (pySplitTab line).dropLast),
          pyUpper (pyStripS ((pySplitTab line).getLastD "")))
  else none

/-- The loader `load_labeled_tsv`, with the file modelled as its list of lines (`none`
when the path does not exist): the first line is the header and must contain
both the `text` and `label` markers as substrings; the remaining lines are
parsed by `parseRow` in order. -/
def load_labeled_tsv (file : Option (List String)) : Except TrainError LabeledDataset :=
  match file with
  | none => Except.error TrainError.datasetNotFound
  | some lines =>
    if strContains (lines.headD "") "text" && strContains (lines.headD "") "label" then
      Except.ok { texts := (lines.tail.filterMap parseRow).map Prod.fst
                  labels := (lines.tail.filterMap parseRow).map Prod.snd }
    else Except.error TrainError.datasetFormat

/-- A fitted TF-IDF + logistic-regression pipeline, modelled as the training
data it was deterministically fitted on (the artifact is otherwise opaque). -/
structure TrainedModel where
  fit_texts : List String
  fit_labels : List String
deriving DecidableEq

/-- The report dict returned by `train_and_save_model` (the elapsed-seconds
field is wall-clock and is not modelled). -/
structure TrainReport where
  rows : Nat
  scam : Nat
  ham : Nat
deriving DecidableEq

/-- Process-wide state: the dataset file at `DATA_PATH`, the artifact at
`MODEL_PATH`, and the module-level `MODEL` variable. -/
structure ServerState where
  dataFile : Option (List String)
  modelFile : Option TrainedModel
  MODEL : Option TrainedModel
deriving DecidableEq

/-- The function `train_and_save_model(DATA_PATH, MODEL_PATH)`: load the dataset, require
at least 20 rows, then fit and write the artifact.  On any raised error no
write has happened, so the state is returned unchanged. -/
def train_and_save_model (st : ServerState) : ServerState × Except TrainError TrainReport :=
  match load_labeled_tsv st.dataFile with
  | Except.error e => (st, Except.error e)
  | Except.ok data =>
    if data.texts.length < 20 then (st, Except.error TrainError.dataInsufficient)
    else
      ({ st with modelFile := some { fit_texts := data.texts, fit_labels := data.labels } },
       Except.ok { rows := data.texts.length
                   scam := (data.labels.filter (fun lbl => lbl = "SCAM")).length
                   ham := (data.labels.filter (fun lbl => lbl = "HAM")).length })

/-- The `/train` endpoint: run `train_and_save_model`; an exception becomes an
HTTP 400 and leaves `MODEL` untouched; on success `MODEL` is reloaded from the
just-written artifact. -/
def train (st : ServerState) : ServerState × Except TrainError TrainReport :=
  match train_and_save_model st with
  | (st1, Except.error e) => (st1, Except.error e)
  | (st1, Except.ok rep) => ({ st1 with MODEL := st1.modelFile }, Except.ok rep)

/-- Errors of the `/analyze` endpoint. -/
inductive ApiError
  | modelNotLoaded
deriving DecidableEq

/-- The `/analyze` endpoint: an empty comment list returns `[]` before the
model check; with no model loaded a non-empty request is rejected; otherwise
each comment is classified with the model's SCAM probability (the pipeline's
`predict_proba` restricted to the SCAM column is the function `predict`). -/
def analyze (MODEL : Option TrainedModel) (predict : String → ℚ) (comments : List String) :
    Except ApiError (List ClassificationResult) :=
  if comments.isEmpty then Except.ok []
  else
    match MODEL with
    | none => Except.error ApiError.modelNotLoaded
    | some _ => Except.ok (comments.map (fun c => classify_one c (predict c)))

/-- The rule score as recomputed from every category other than the URL rule
(used to state what the URL rule alone contributes). -/
def rule_score_sans_url (text : String) : Nat :=
  (if funnelSearch (pyStrip text.data) then 4 else 0) +
  (if adultSearch (pyStrip text.data) then 6 else 0) +
  (if tickerSearch (pyStrip text.data) then 4 else 0) +
  (if profitSearch (pyStrip text.data) then 3 else 0) +
  (if handleSearch (pyStrip text.data) then 2 else 0) +
  (if heartSearch (pyStrip text.data) then 1 else 0)

/-- The hard-threshold branch of the decision: at or above
`RULE_HARD_SCAM_SCORE` the flag is set unconditionally. -/
theorem is_scam_of_hard (rscore : Nat) (p : ℚ) (h : RULE_HARD_SCAM_SCORE ≤ rscore) :
    is_scam rscore p = true := by
  unfold is_scam
  rw [if_pos h]

/-- The first rung of the ladder: an adult tag wins outright. -/
theorem tft_of_adult (tags : List String) (h : "adult" ∈ tags) :
    tactic_from_tags tags = some "SCAM_ADULT" := by
  unfold tactic_from_tags
  rw [if_pos h]

/-- Any text whose stripped form matches the adult keywords has rule score at
least 6 and carries the adult tag. -/
theorem rule_features_of_adult (text : String) (h : adultSearch (pyStrip text.data) = true) :
    RULE_HARD_SCAM_SCORE ≤ (rule_features text).rule_score ∧
    "adult" ∈ (rule_features text).rule_tags := by
  unfold rule_features RULE_HARD_SCAM_SCORE
  constructor
  · simp only [h, if_true]
    omega
  · simp [h]

/-- C1: for every input text and ML probability, if the rule engine scores the
text at or above the hard threshold 6, the fused label is SCAM, regardless of
the ML probability. -/
theorem hard_rule_forces_scam (text : String) (p : ℚ)
    (h : RULE_HARD_SCAM_SCORE ≤ (rule_features text).rule_score) :
    (classify_one text p).label = "SCAM" := by
  simp [classify_one, fuse, is_scam_of_hard _ p h]

/-- Witness for C1 at text "sex" and ML probability 0. -/
theorem hard_rule_forces_scam_witness :
    RULE_HARD_SCAM_SCORE ≤ (rule_features "sex").rule_score ∧
    (classify_one "sex" 0).label = "SCAM" :=
  ⟨by decide, hard_rule_forces_scam "sex" 0 (by decide)⟩

/-- C2: for every rule score and ML probability in [0,1], the returned score
is min(1, mlProbability + 0.05 * rule_score), independent of the label, and
lies in [0,1]. -/
theorem combined_score_formula (rscore : Nat) (tags : List String) (p : ℚ)
    (h0 : 0 ≤ p) (h1 : p ≤ 1) :
    (fuse rscore tags p).score = min 1 (p + 0.05 * (rscore : ℚ)) ∧
    0 ≤ (fuse rscore tags p).score ∧ (fuse rscore tags p).score ≤ 1 := by
  have hc : (mkRat 5 100 : ℚ) = 0.05 := by norm_num
  refine ⟨?_, ?_, ?_⟩
  · show min 1 (p + mkRat 5 100 * (rscore : ℚ)) = min 1 (p + 0.05 * (rscore : ℚ))
    rw [hc]
  · show 0 ≤ min 1 (p + mkRat 5 100 * (rscore : ℚ))
    exact le_min (by norm_num)
      (add_nonneg h0 (mul_nonneg (by norm_num) (by positivity)))
  · exact min_le_left _ _

/-- Witness for C2 at rule score 2, no tags, ML probability 1/2. -/
theorem combined_score_formula_witness :
    (0 : ℚ) ≤ 1/2 ∧ (1/2 : ℚ) ≤ 1 ∧
    ((fuse 2 [] (1/2)).score = min 1 (1/2 + 0.05 * ((2 : Nat) : ℚ)) ∧
     0 ≤ (fuse 2 [] (1/2)).score ∧ (fuse 2 [] (1/2)).score ≤ 1) :=
  ⟨by norm_num, by norm_num, combined_score_formula 2 [] (1/2) (by norm_num) (by norm_num)⟩

/-- C3: for every input text and ML probability, if the rule score is below
the soft threshold 3 and the ML probability is below 0.70, the fused label
is HAM. -/
theorem low_signals_yield_ham (text : String) (p : ℚ)
    (h1 : (rule_features text).rule_score < 3) (h2 : p < 0.70) :
    (classify_one text p).label = "HAM" := by
  have hA : ¬ (RULE_HARD_SCAM_SCORE ≤ (rule_features text).rule_score) := by
    unfold RULE_HARD_SCAM_SCORE
    omega
  have hB : ¬ (RULE_SOFT_SCAM_SCORE ≤ (rule_features text).rule_score ∧
      mkRat 55 100 ≤ scam_prob (rule_features text).rule_score p) := by
    intro hc
    have := hc.1
    unfold RULE_SOFT_SCAM_SCORE at this
    omega
  have hC : ¬ (mkRat 7 10 ≤ p) := by
    have he : (mkRat 7 10 : ℚ) = 0.70 := by norm_num
    rw [he]
    exact not_le.mpr h2
  simp [classify_one, fuse, is_scam, hA, hB, hC]

/-- Witness for C3 at text "First" and ML probability 0. -/
theorem low_signals_yield_ham_witness :
    (rule_features "First").rule_score < 3 ∧ (0 : ℚ) < 0.70 ∧
    (classify_one "First" 0).label = "HAM" :=
  ⟨by decide, by norm_num, low_signals_yield_ham "First" 0 (by decide) (by norm_num)⟩

/-- C5: tactic_from_tags is the fixed priority ladder, evaluated top to
bottom, returning the first rung that matches: adult, then ticker+profit,
then funnel with profit/handle/url, then url+profit, then emoji_spam+funnel,
else none. -/
theorem tactic_ladder_order (tags : List String) :
    ("adult" ∈ tags → tactic_from_tags tags = some "SCAM_ADULT") ∧
    ("adult" ∉ tags → "ticker" ∈ tags ∧ "profit" ∈ tags →
      tactic_from_tags tags = some "SCAM_CRYPTO") ∧
    ("adult" ∉ tags → ¬("ticker" ∈ tags ∧ "profit" ∈ tags) →
      "funnel" ∈ tags ∧ ("profit" ∈ tags ∨ "handle" ∈ tags ∨ "url" ∈ tags) →
      tactic_from_tags tags = some "SCAM_FUNNEL") ∧
    ("adult" ∉ tags → ¬("ticker" ∈ tags ∧ "profit" ∈ tags) →
      ¬("funnel" ∈ tags ∧ ("profit" ∈ tags ∨ "handle" ∈ tags ∨ "url" ∈ tags)) →
      "url" ∈ tags ∧ "profit" ∈ tags → tactic_from_tags tags = some "SCAM_FUNNEL") ∧
    ("adult" ∉ tags → ¬("ticker" ∈ tags ∧ "profit" ∈ tags) →
      ¬("funnel" ∈ tags ∧ ("profit" ∈ tags ∨ "handle" ∈ tags ∨ "url" ∈ tags)) →
      ¬("url" ∈ tags ∧ "profit" ∈ tags) →
      "emoji_spam" ∈ tags ∧ "funnel" ∈ tags → tactic_from_tags tags = some "SCAM_FUNNEL") ∧
    ("adult" ∉ tags → ¬("ticker" ∈ tags ∧ "profit" ∈ tags) →
      ¬("funnel" ∈ tags ∧ ("profit" ∈ tags ∨ "handle" ∈ tags ∨ "url" ∈ tags)) →
      ¬("url" ∈ tags ∧ "profit" ∈ tags) →
      ¬("emoji_spam" ∈ tags ∧ "funnel" ∈ tags) →
      tactic_from_tags tags = none) := by
  unfold tactic_from_tags
  refine ⟨fun h1 => ?_, fun h1 h2 => ?_, fun h1 h2 h3 => ?_, fun h1 h2 h3 h4 => ?_,
    fun h1 h2 h3 h4 h5 => ?_, fun h1 h2 h3 h4 h5 => ?_⟩
  · rw [if_pos h1]
  · rw [if_neg h1, if_pos h2]
  · rw [if_neg h1, if_neg h2, if_pos h3]
  · rw [if_neg h1, if_neg h2, if_neg h3, if_pos h4]
  · rw [if_neg h1, if_neg h2, if_neg h3, if_neg h4, if_pos h5]
  · rw [if_neg h1, if_neg h2, if_neg h3, if_neg h4, if_neg h5]

/-- Witness for C5 on the tag set of a matched adult rule. -/
theorem tactic_ladder_order_witness :
    tactic_from_tags ["adult", "url"] = some "SCAM_ADULT" :=
  (tactic_ladder_order ["adult", "url"]).1 (by decide)

/-- C6: in every fused result the tactic field is tactic_from_tags of the rule
tags when the label is SCAM and none when the label is HAM. -/
theorem tactic_only_when_scam (rscore : Nat) (tags : List String) (p : ℚ) :
    ((fuse rscore tags p).label = "SCAM" → (fuse rscore tags p).tactic = tactic_from_tags tags) ∧
    ((fuse rscore tags p).label = "HAM" → (fuse rscore tags p).tactic = none) := by
  cases h : is_scam rscore p <;> simp [fuse, h]

/-- Witness for C6 at the hard threshold with an adult tag present, and below
every threshold with tags still present. -/
theorem tactic_only_when_scam_witness :
    (fuse 6 ["adult"] 0).tactic = tactic_from_tags ["adult"] ∧
    (fuse 2 ["handle"] 0).tactic = none :=
  ⟨(tactic_only_when_scam 6 ["adult"] 0).1 (by decide),
   (tactic_only_when_scam 2 ["handle"] 0).2 (by decide)⟩

/-- C9: for every text whose stripped form matches an adult keyword and every
ML probability, the label is SCAM and the tactic is SCAM_ADULT: the adult
weight 6 alone reaches the hard threshold 6, and adult is the ladder's top
rung. -/
theorem adult_keyword_forces_scam_adult (text : String) (p : ℚ)
    (h : adultSearch (pyStrip text.data) = true) :
    (classify_one text p).label = "SCAM" ∧
    (classify_one text p).tactic = some "SCAM_ADULT" := by
  obtain ⟨hs, hm⟩ := rule_features_of_adult text h
  have hi := is_scam_of_hard (rule_features text).rule_score p hs
  constructor
  · simp [classify_one, fuse, hi]
  · simp [classify_one, fuse, hi, tft_of_adult _ hm]

/-- Witness for C9 at text "hot naughty pics" and ML probability 0. -/
theorem adult_keyword_forces_scam_adult_witness :
    adultSearch (pyStrip ("hot naughty pics").data) = true ∧
    (classify_one "hot naughty pics" 0).label = "SCAM" ∧
    (classify_one "hot naughty pics" 0).tactic = some "SCAM_ADULT" :=
  ⟨by decide, adult_keyword_forces_scam_adult "hot naughty pics" 0 (by decide)⟩

/-- C4 counterexample: in "sexwww.dm me" the URL regex matches the substring
"www.dm".  Removing that URL yields "sex me" (score 6: the url weight
disappears but an adult match appears), and even removing only the "www."
marker yields "sexdm me" (score 0: the url weight disappears and the funnel
match is destroyed), while the original scores 8, so the score is not exactly
4 greater than that of the text with the URL removed. -/
theorem url_removal_cex :
    urlSearch (pyStrip ("sexwww.dm me").data) = true ∧
    (rule_features "sexwww.dm me").rule_score = 8 ∧
    (rule_features "sex me").rule_score = 6 ∧
    (rule_features "sexdm me").rule_score = 0 ∧
    (rule_features "sexwww.dm me").rule_score ≠ (rule_features "sex me").rule_score + 4 ∧
    (rule_features "sexwww.dm me").rule_score ≠ (rule_features "sexdm me").rule_score + 4 := by
  decide

/-- C4 (amended): for every text in which the URL pattern matches, "url" is
among the rule tags, and the rule score is exactly 4 greater than the sum
contributed by the other six rule categories on the same text. -/
theorem url_rule_weight (text : String) (h : urlSearch (pyStrip text.data) = true) :
    "url" ∈ (rule_features text).rule_tags ∧
    (rule_features text).rule_score = 4 + rule_score_sans_url text := by
  unfold rule_features rule_score_sans_url
  constructor
  · simp [h]
  · simp only [h, eq_self_iff_true, if_true, ite_self]
    omega

/-- Witness for C4 (amended) at text "www.x". -/
theorem url_rule_weight_witness :
    urlSearch (pyStrip ("www.x").data) = true ∧
    ("url" ∈ (rule_features "www.x").rule_tags ∧
     (rule_features "www.x").rule_score = 4 + rule_score_sans_url "www.x") :=
  ⟨by decide, url_rule_weight "www.x" (by decide)⟩

/-- C7: whenever the dataset loads but has fewer than 20 usable rows, the
train endpoint fails with the data-insufficiency error and the whole state —
model artifact on disk and the loaded MODEL — is unchanged. -/
theorem insufficient_rows_unchanged (st : ServerState) (d : LabeledDataset)
    (hload : load_labeled_tsv st.dataFile = Except.ok d)
    (hlt : d.texts.length < 20) :
    train st = (st, Except.error TrainError.dataInsufficient) := by
  unfold train train_and_save_model
  rw [hload]
  simp [hlt]

/-- Witness for C7 on a one-row dataset and empty model state. -/
theorem insufficient_rows_unchanged_witness :
    load_labeled_tsv (ServerState.mk (some ["text\tlabel", "hi\tSCAM"]) none none).dataFile
      = Except.ok (LabeledDataset.mk ["hi"] ["SCAM"]) ∧
    (LabeledDataset.mk ["hi"] ["SCAM"]).texts.length < 20 ∧
    train (ServerState.mk (some ["text\tlabel", "hi\tSCAM"]) none none)
      = (ServerState.mk (some ["text\tlabel", "hi\tSCAM"]) none none,
         Except.error TrainError.dataInsufficient) :=
  ⟨by rfl, by decide,
   insufficient_rows_unchanged (ServerState.mk (some ["text\tlabel", "hi\tSCAM"]) none none)
     (LabeledDataset.mk ["hi"] ["SCAM"]) (by rfl) (by decide)⟩

/-- C10: the empty-request check precedes the model check: an empty comment
list yields an empty result list even with no model loaded, and the
no-model error is raised only for non-empty requests. -/
theorem empty_request_short_circuit (MODEL : Option TrainedModel)
    (predict : String → ℚ) (comments : List String) :
    analyze MODEL predict [] = Except.ok [] ∧
    (comments ≠ [] → analyze none predict comments = Except.error ApiError.modelNotLoaded) := by
  constructor
  · rfl
  · intro h
    unfold analyze
    rw [if_neg (by simpa using h)]

/-- Witness for C10: empty request with no model, and a one-comment request
with no model. -/
theorem empty_request_short_circuit_witness :
    analyze none (fun _ => 0) [] = Except.ok [] ∧
    analyze none (fun _ => 0) ["x"] = Except.error ApiError.modelNotLoaded :=
  ⟨(empty_request_short_circuit none (fun _ => 0) ["x"]).1,
   (empty_request_short_circuit none (fun _ => 0) ["x"]).2 (by decide)⟩

/-- C8 counterexample: on the data line " hello \tSCAM" the stored text is
"hello" — the tab-join of all but the last field additionally stripped of
surrounding whitespace — not the plain join " hello " that the claim
describes. -/
theorem tsv_text_strip_cex :
    load_labeled_tsv (some ["text\tlabel", " hello \tSCAM"]) =
      Except.ok (LabeledDataset.mk ["hello"] ["SCAM"]) ∧
    pyJoinTab (pySplitTab " hello \tSCAM").dropLast = " hello " ∧
    (" hello " : String) ≠ "hello" := by
  refine ⟨by rfl, by rfl, by decide⟩

/-- C8 (amended): loading an existing dataset file fails with the format
error exactly when the header lacks the "text" or "label" marker; with a
valid header it succeeds with the rows parsed in order by `parseRow`, where
every line with fewer than two tab fields is skipped, every kept line stores
the tab-join of all but the last field (additionally stripped of surrounding
whitespace) as text and the last field stripped and upper-cased as label,
and any row whose label is not exactly SCAM or HAM is silently dropped. -/
theorem tsv_loading_contract (lines : List String) (line : String) :
    (load_labeled_tsv (some lines) = Except.error TrainError.datasetFormat ↔
      ¬(strContains (lines.headD "") "text" = true ∧
        strContains (lines.headD "") "label" = true)) ∧
    (strContains (lines.headD "") "text" = true →
      strContains (lines.headD "") "label" = true →
      load_labeled_tsv (some lines) =
        Except.ok (LabeledDataset.mk ((lines.tail.filterMap parseRow).map Prod.fst)
          ((lines.tail.filterMap parseRow).map Prod.snd))) ∧
    ((pySplitTab line).length < 2 → parseRow line = none) ∧
    (∀ t lbl, parseRow line = some (t, lbl) →
      t = pyStripS (pyJoinTab (pySplitTab line).dropLast) ∧
      lbl = pyUpper (pyStripS ((pySplitTab line).getLastD ""))) ∧
    (pyUpper (pyStripS ((pySplitTab line).getLastD "")) ≠ "SCAM" →
      pyUpper (pyStripS ((pySplitTab line).getLastD "")) ≠ "HAM" →
      parseRow line = none) := by
  refine ⟨?_, ?_, ?_, ?_, ?_⟩
  · simp only [load_labeled_tsv]
    by_cases hc : (strContains (lines.headD "") "text" &&
        strContains (lines.headD "") "label") = true
    · rw [if_pos hc]
      simp only [Bool.and_eq_true] at hc
      exact ⟨fun he => Except.noConfusion he, fun hn => absurd hc hn⟩
    · rw [if_neg hc]
      simp only [Bool.and_eq_true] at hc
      exact ⟨fun _ => hc, fun _ => rfl⟩
  · intro h1 h2
    simp only [load_labeled_tsv]
    rw [if_pos (by rw [h1, h2]; rfl)]
  · intro hlen
    unfold parseRow
    by_cases hb : pyStripS line = ""
    · rw [if_pos hb]
    · rw [if_neg hb, if_pos hlen]
  · intro t lbl hsome
    unfold parseRow at hsome
    by_cases hb : pyStripS line = ""
    · rw [if_pos hb] at hsome
      exact absurd hsome (by simp)
    · rw [if_neg hb] at hsome
      by_cases hlen : (pySplitTab line).length < 2
      · rw [if_pos hlen] at hsome
        exact absurd hsome (by simp)
      · rw [if_neg hlen] at hsome
        by_cases hl : pyUpper (pyStripS ((pySplitTab line).getLastD "")) = "SCAM"
            ∨ pyUpper (pyStripS ((pySplitTab line).getLastD "")) = "HAM"
        · rw [if_pos hl] at hsome
          simp only [Option.some.injEq, Prod.mk.injEq] at hsome
          exact ⟨hsome.1.symm, hsome.2.symm⟩
        · rw [if_neg hl] at hsome
          exact absurd hsome (by simp)
  · intro hs hh
    unfold parseRow
    by_cases hb : pyStripS line = ""
    · rw [if_pos hb]
    · rw [if_neg hb]
      by_cases hlen : (pySplitTab line).length < 2
      · rw [if_pos hlen]
      · rw [if_neg hlen, if_neg (by rintro (h | h) <;> [exact hs h; exact hh h])]

/-- Witness for C8 (amended) on a two-line file whose data line carries a
literal-tab text and a lower-case label. -/
theorem tsv_loading_contract_witness :
    load_labeled_tsv (some ["text\tlabel", "a\tb\tham"]) =
      Except.ok (LabeledDataset.mk ["a\tb"] ["HAM"]) := by
  have h := (tsv_loading_contract ["text\tlabel", "a\tb\tham"] "a\tb\tham").2.1
    (by decide) (by decide)
  rw [h]
  rfl
